import Mathlib

/-!
Verification of the batch-dispatch pipeline of the `ide-inbox-cron` worker
(`src/index.ts`), as a shallow embedding in Lean 4.

Modelling conventions:
* `TaskPayload` mirrors the TypeScript interface of the same name; optional
  fields become `Option`.
* The Notion page request body (`NotionPage` in the source) is modelled as a
  list of named properties in construction order, so that statements about
  which fields the payload contains are directly expressible.
* The single outbound `fetch` to the Notion API is modelled by an oracle
  `net : NotionPage → FetchOutcome` supplied as a parameter; `FetchOutcome`
  distinguishes the cases the source distinguishes: transport success with an
  OK status and a parseable body, transport success with an OK status but an
  unparseable body, transport success with a non-OK status, and transport
  failure.  Exceptions are modelled with `Except`.
* JavaScript truthiness in `task.status || 'Queued'` and
  `if (task.description)` is modelled faithfully: the empty string counts as
  absent.
* The D1 log store is a pair of in-memory tables; the fallibility of a write
  is a boolean parameter `writeFails`.  `JSON.stringify(results)` in the run
  log row is modelled by storing the result list itself.
* Wall-clock formatting in `getPendingTasks` is environmental and enters the
  model as the `formattedTime` string parameter; the (unused) KV task queue of
  `Env.TASK_QUEUE` enters as the `queue` parameter.
-/

/-- Mirrors the `TaskPayload` interface (src/index.ts lines 18-24). -/
structure TaskPayload where
  title : String
  description : Option String := none
  priority : Option String := none
  status : Option String := none
  tags : Option (List String) := none
deriving Repr, DecidableEq

/-- One named property value of the Notion page request body, covering the
property kinds appearing in the `NotionPage` interface (title, status, select,
rich_text) plus multi-select, which the external schema has but the source
never emits. -/
inductive FieldValue where
  | titleV (content : String)
  | statusV (name : String)
  | selectV (name : String)
  | richTextV (content : String)
  | multiSelectV (names : List String)
deriving Repr, DecidableEq

/-- True exactly on a multi-select property value. -/
def FieldValue.isMultiSelect : FieldValue → Bool
  | .multiSelectV _ => true
  | _ => false

/-- The Notion page request body: target database plus the named properties in
the order the source constructs them. -/
structure NotionPage where
  databaseId : String
  properties : List (String × FieldValue)
deriving Repr, DecidableEq

/-- Mirrors `buildNotionPage` (src/index.ts lines 280-327): Title always; Status
defaulted by `task.status || 'Queued'`; Agent and Content Type hardcoded; Notes
appended only under `if (task.description)`.  `priority` and `tags` are never
read by the source function. -/
def buildNotionPage (databaseId : String) (task : TaskPayload) : NotionPage :=
  let base : List (String × FieldValue) :=
    [("Title", FieldValue.titleV task.title),
     ("Status", FieldValue.statusV
        (match task.status with
         | some s => if s.isEmpty then "Queued" else s
         | none => "Queued")),
     ("Agent", FieldValue.selectV "Content Writer"),
     ("Content Type", FieldValue.selectV "Blog Post")]
  let props : List (String × FieldValue) :=
    match task.description with
    | some d => if d.isEmpty then base else base ++ [("Notes", FieldValue.richTextV d)]
    | none => base
  { databaseId := databaseId, properties := props }

/-- Mirrors the return shape of `createNotionPage` (src/index.ts lines 236-241). -/
structure DispatchResult where
  success : Bool
  taskId : String
  pageId : Option String := none
  error : Option String := none
deriving Repr, DecidableEq

/-- Outcome of the single `fetch` call to the Notion API, from the point of view
of the code in `createNotionPage`: `ok` is `response.ok` with a JSON body whose
`id` parses; `okParseError` is `response.ok` but `response.json()` throwing;
`httpError` is `!response.ok` with the awaited body text; `transportError` is
`fetch` itself throwing with the given message. -/
inductive FetchOutcome where
  | ok (pageId : String)
  | okParseError (msg : String)
  | httpError (status : Nat) (body : String)
  | transportError (msg : String)
deriving Repr, DecidableEq

/-- The message of the `Error` thrown on a non-OK response
(src/index.ts line 257). -/
def notionApiErrorMsg (status : Nat) (body : String) : String :=
  "Notion API error: " ++ toString status ++ " " ++ body

/-- Mirrors `createNotionPage` (src/index.ts lines 236-275): build the page,
perform one network call, and convert every fault of the `try` block into a
failure `DispatchResult` via the `catch` block. -/
def createNotionPage (dbId : String) (net : NotionPage → FetchOutcome)
    (task : TaskPayload) : DispatchResult :=
  match net (buildNotionPage dbId task) with
  | .ok pageId => { success := true, taskId := task.title, pageId := some pageId }
  | .okParseError msg => { success := false, taskId := task.title, error := some msg }
  | .httpError status body =>
      { success := false, taskId := task.title,
        error := some (notionApiErrorMsg status body) }
  | .transportError msg => { success := false, taskId := task.title, error := some msg }

/-- One observable effect of a dispatch loop: a Page Submitter call, or the
interposed `setTimeout` pause. -/
inductive Event where
  | submit (task : TaskPayload) (result : DispatchResult)
  | sleep (ms : Nat)
deriving Repr, DecidableEq

/-- True exactly on a pause event. -/
def Event.isSleep : Event → Bool
  | .sleep _ => true
  | _ => false

/-- The `for` loop of the `scheduled` handler (src/index.ts lines 88-95):
submit, push the result, then `setTimeout(…, 100)` after every submission.
Accumulator-passing mirrors the imperative `results.push(result)`. -/
def scheduledLoop (dbId : String) (net : NotionPage → FetchOutcome) :
    List TaskPayload → List DispatchResult → List Event →
    List DispatchResult × List Event
  | [], resAcc, evAcc => (resAcc, evAcc)
  | task :: rest, resAcc, evAcc =>
    let result := createNotionPage dbId net task
    scheduledLoop dbId net rest (resAcc ++ [result])
      (evAcc ++ [Event.submit task result, Event.sleep 100])

/-- The `for` loop of the `/trigger` route of the `fetch` handler
(src/index.ts lines 159-164): submit and push, with no pause. -/
def triggerLoop (dbId : String) (net : NotionPage → FetchOutcome) :
    List TaskPayload → List DispatchResult → List Event →
    List DispatchResult × List Event
  | [], resAcc, evAcc => (resAcc, evAcc)
  | task :: rest, resAcc, evAcc =>
    let result := createNotionPage dbId net task
    triggerLoop dbId net rest (resAcc ++ [result]) (evAcc ++ [Event.submit task result])

/-- The row written to `cron_logs`, also the batch summary of the run
(src/index.ts lines 104-111); `results` is kept as a list rather than a JSON
string. -/
structure BatchSummary where
  timestamp : String
  totalTasks : Nat
  successCount : Nat
  failureCount : Nat
  results : List DispatchResult
deriving Repr, DecidableEq

/-- The summary the `scheduled` handler assembles after the loop
(src/index.ts lines 98-111): counts by filtering `results` on `success`. -/
def mkBatchSummary (timestamp : String) (totalTasks : Nat)
    (results : List DispatchResult) : BatchSummary :=
  { timestamp := timestamp
    totalTasks := totalTasks
    successCount := (results.filter (fun r => r.success)).length
    failureCount := (results.filter (fun r => !r.success)).length
    results := results }

/-- A row of the `error_logs` table (src/index.ts lines 360-375). -/
structure ErrorRow where
  timestamp : String
  errorMessage : String
  stackTrace : Option String
deriving Repr, DecidableEq

/-- The D1 store: the two append-only tables of migrations/0001_init.sql. -/
structure DbState where
  cronLogs : List BatchSummary
  errorLogs : List ErrorRow
deriving Repr, DecidableEq

/-- The fallible `prepare(…).bind(…).run()` insert into `cron_logs`
(src/index.ts lines 342-351); `writeFails` selects whether the store write
faults. -/
def d1InsertCron (writeFails : Bool) (db : DbState) (row : BatchSummary) :
    Except String DbState :=
  if writeFails then Except.error "Failed to log to D1"
  else Except.ok { db with cronLogs := db.cronLogs ++ [row] }

/-- The fallible insert into `error_logs` (src/index.ts lines 368-375). -/
def d1InsertError (writeFails : Bool) (db : DbState) (row : ErrorRow) :
    Except String DbState :=
  if writeFails then Except.error "Failed to log error to D1"
  else Except.ok { db with errorLogs := db.errorLogs ++ [row] }

/-- Mirrors `logToD1` (src/index.ts lines 332-355): return unchanged when the
store is absent (`if (!env.DB) return`), otherwise attempt the insert and
swallow any write fault (`catch` leaves the store as it was).  The total return
type records that the function itself never raises. -/
def logToD1 (writeFails : Bool) (db : Option DbState) (row : BatchSummary) :
    Option DbState :=
  match db with
  | none => none
  | some st =>
    match d1InsertCron writeFails st row with
    | .ok st2 => some st2
    | .error _ => some st

/-- Mirrors `logErrorToD1` (src/index.ts lines 360-379), same structure as
`logToD1`. -/
def logErrorToD1 (writeFails : Bool) (db : Option DbState) (row : ErrorRow) :
    Option DbState :=
  match db with
  | none => none
  | some st =>
    match d1InsertError writeFails st row with
    | .ok st2 => some st2
    | .error _ => some st

/-- What one `scheduled` invocation produces: the (possibly updated) log store,
the summary it computed (none when it returned early on an empty task list),
and the effect trace of the dispatch loop. -/
structure ScheduledOutcome where
  db : Option DbState
  summary : Option BatchSummary
  events : List Event
deriving Repr, DecidableEq

/-- Mirrors the happy path of the `scheduled` handler (src/index.ts lines
71-128) after task derivation: early return on an empty task list (lines
82-85), otherwise run the throttled loop, assemble the summary, and write it to
D1 only when the store is configured (`if (env.DB)`, line 104).  The `catch`
block of the source is unreachable here because every step of the model is
total, matching the source in which per-record faults are absorbed by
`createNotionPage` and log faults by `logToD1`. -/
def scheduledRun (timestamp dbId : String) (net : NotionPage → FetchOutcome)
    (tasks : List TaskPayload) (writeFails : Bool) (db : Option DbState) :
    ScheduledOutcome :=
  if tasks.length = 0 then { db := db, summary := none, events := [] }
  else
    let run := scheduledLoop dbId net tasks [] []
    let summary := mkBatchSummary timestamp tasks.length run.1
    let db2 := match db with
      | some _ => logToD1 writeFails db summary
      | none => db
    { db := db2, summary := some summary, events := run.2 }

/-- The long fixed description of the hourly batch task
(src/index.ts line 225). -/
def contentBatchDescription : String :=
  "Hourly batch trigger. Write 5 articles from Content Lines with Status=Active. Round-robin from active outlines, prioritizing oldest entries first (Status = Outline Needed or Queued)."

/-- Mirrors `getPendingTasks` (src/index.ts lines 207-231): push exactly one
Content Writer batch task, whose title interpolates the formatted current time.
`queue` stands for the contents of the optional `Env.TASK_QUEUE` KV binding,
which the source declares (line 13) but this function never reads;
`formattedTime` stands for the `toLocaleString` rendering of the current time. -/
def getPendingTasks (queue : Option (List TaskPayload)) (formattedTime : String) :
    List TaskPayload :=
  let _ := queue
  [{ title := "Write Content Batch — " ++ formattedTime
     description := some contentBatchDescription
     status := some "Queued"
     priority := some "High" }]

/-- Body of an HTTP response of the `fetch` handler routes under study. -/
inductive ResponseBody where
  | triggerOk (message : String) (results : List DispatchResult)
  | single (result : DispatchResult)
  | errorBody (error : String)
deriving Repr, DecidableEq

/-- An HTTP response: status code and JSON body. -/
structure HttpResponse where
  status : Nat
  body : ResponseBody
deriving Repr, DecidableEq

/-- Mirrors the `/trigger` route (src/index.ts lines 153-177).  `parsedBody`
stands for the outcome of `await request.json()` together with the access to
its optional `tasks` field: `Except.error` is the `catch` path (status 500),
`Except.ok none` a body without tasks (fall back to `getPendingTasks`, whose
result is the `pending` parameter), `Except.ok (some ts)` a body supplying
tasks.  A successful parse always yields status 200, with per-record failures
carried inside `results`. -/
def triggerHandler (dbId : String) (net : NotionPage → FetchOutcome)
    (pending : List TaskPayload)
    (parsedBody : Except String (Option (List TaskPayload))) : HttpResponse :=
  match parsedBody with
  | .error e => { status := 500, body := ResponseBody.errorBody e }
  | .ok maybeTasks =>
    let tasks := maybeTasks.getD pending
    let run := triggerLoop dbId net tasks [] []
    { status := 200
      body := ResponseBody.triggerOk
        ("Processed " ++ toString tasks.length ++ " tasks") run.1 }

/-- Mirrors the `/create` route (src/index.ts lines 180-193): parse a single
task, submit it once, return the `DispatchResult` as the body; only a body
parse failure reaches the `catch` and produces status 500. -/
def createHandler (dbId : String) (net : NotionPage → FetchOutcome)
    (parsedBody : Except String TaskPayload) : HttpResponse :=
  match parsedBody with
  | .error e => { status := 500, body := ResponseBody.errorBody e }
  | .ok task =>
    { status := 200, body := ResponseBody.single (createNotionPage dbId net task) }

/-! ## Helper lemmas -/

/-- Closed form of the scheduled loop: past any accumulators, it appends one
result per task in input order and, after every submission, a 100ms pause. -/
theorem scheduledLoop_eq (dbId : String) (net : NotionPage → FetchOutcome) :
    ∀ (tasks : List TaskPayload) (resAcc : List DispatchResult) (evAcc : List Event),
    scheduledLoop dbId net tasks resAcc evAcc =
      (resAcc ++ tasks.map (fun t => createNotionPage dbId net t),
       evAcc ++ tasks.flatMap (fun t =>
         [Event.submit t (createNotionPage dbId net t), Event.sleep 100])) := by
  intro tasks
  induction tasks with
  | nil => intro resAcc evAcc; simp [scheduledLoop]
  | cons t ts ih => intro resAcc evAcc; simp [scheduledLoop, ih]

/-- Closed form of the `/trigger` loop: one result per task in input order and
one submit event per task, with no pause events at all. -/
theorem triggerLoop_eq (dbId : String) (net : NotionPage → FetchOutcome) :
    ∀ (tasks : List TaskPayload) (resAcc : List DispatchResult) (evAcc : List Event),
    triggerLoop dbId net tasks resAcc evAcc =
      (resAcc ++ tasks.map (fun t => createNotionPage dbId net t),
       evAcc ++ tasks.map (fun t => Event.submit t (createNotionPage dbId net t))) := by
  intro tasks
  induction tasks with
  | nil => intro resAcc evAcc; simp [triggerLoop]
  | cons t ts ih => intro resAcc evAcc; simp [triggerLoop, ih]

/-- Filtering a result list on `success` and on its negation partitions it. -/
theorem length_filter_success_add_not (results : List DispatchResult) :
    (results.filter (fun r => r.success)).length
      + (results.filter (fun r => !r.success)).length = results.length := by
  induction results with
  | nil => rfl
  | cons r rs ih => cases h : r.success <;> simp [List.filter_cons, h, ih] <;> omega


/-! ## Claim theorems -/

/-- C1: for every task sequence and every network behaviour (including any
pattern of failing submissions), both dispatch loops run to completion and
produce exactly one `DispatchResult` per input record, in input order: the
result list is the pointwise image of the input list under the Page Submitter,
its length equals the input length, and the i-th result comes from the i-th
input record. -/
theorem batch_dispatch_one_result_per_input (dbId : String)
    (net : NotionPage → FetchOutcome) (tasks : List TaskPayload) :
    (scheduledLoop dbId net tasks [] []).1
        = tasks.map (fun t => createNotionPage dbId net t)
    ∧ ((scheduledLoop dbId net tasks [] []).1).length = tasks.length
    ∧ (∀ i : Nat, ((scheduledLoop dbId net tasks [] []).1)[i]?
        = (tasks[i]?).map (fun t => createNotionPage dbId net t))
    ∧ (triggerLoop dbId net tasks [] []).1
        = tasks.map (fun t => createNotionPage dbId net t) := by
  refine ⟨?_, ?_, ?_, ?_⟩
  · simp [scheduledLoop_eq]
  · simp [scheduledLoop_eq]
  · intro i; simp [scheduledLoop_eq]
  · simp [triggerLoop_eq]

/-- C2: the summary the scheduled run assembles from the loop's results
satisfies `successCount + failureCount = totalTasks = results.length`, for
every task sequence and network behaviour. -/
theorem batch_summary_invariant (timestamp dbId : String)
    (net : NotionPage → FetchOutcome) (tasks : List TaskPayload) :
    (mkBatchSummary timestamp tasks.length
        (scheduledLoop dbId net tasks [] []).1).successCount
      + (mkBatchSummary timestamp tasks.length
          (scheduledLoop dbId net tasks [] []).1).failureCount
      = (mkBatchSummary timestamp tasks.length
          (scheduledLoop dbId net tasks [] []).1).totalTasks
    ∧ (mkBatchSummary timestamp tasks.length
          (scheduledLoop dbId net tasks [] []).1).totalTasks
      = (mkBatchSummary timestamp tasks.length
          (scheduledLoop dbId net tasks [] []).1).results.length := by
  constructor
  · show (List.filter _ _).length + (List.filter _ _).length = tasks.length
    rw [length_filter_success_add_not]
    simp [scheduledLoop_eq]
  · simp [mkBatchSummary, scheduledLoop_eq]

/-- C3: the Page Submitter is total — every network outcome is converted to a
`DispatchResult` carrying the record's title as `taskId`; on a non-OK status
the result is the failure shape whose error message ends with the response
body as diagnostic text, and on transport failure it is the failure shape
carrying the fault's own message.  A single outcome of the single network call
determines the result, so no retry occurs. -/
theorem page_submitter_never_escapes (dbId : String) (task : TaskPayload) :
    (∀ net, (createNotionPage dbId net task).taskId = task.title)
    ∧ (∀ status body,
        createNotionPage dbId (fun _ => FetchOutcome.httpError status body) task
          = { success := false, taskId := task.title, pageId := none,
              error := some (notionApiErrorMsg status body) }
        ∧ ∃ pre, notionApiErrorMsg status body = pre ++ body)
    ∧ (∀ msg,
        createNotionPage dbId (fun _ => FetchOutcome.transportError msg) task
          = { success := false, taskId := task.title, pageId := none,
              error := some msg }) := by
  refine ⟨?_, ?_, ?_⟩
  · intro net
    cases h : net (buildNotionPage dbId task) <;> simp [createNotionPage, h]
  · intro status body
    exact ⟨rfl, ⟨"Notion API error: " ++ toString status ++ " ", rfl⟩⟩
  · intro msg; rfl

/-- C4 counterexample: for a record with only `title` set, the built payload
does not consist of the title field alone — it carries four fields, among them
an unconditional Status field defaulted to "Queued". -/
theorem title_only_payload_not_title_alone :
    ((buildNotionPage "db" { title := "X" }).properties.map Prod.fst)
      = ["Title", "Status", "Agent", "Content Type"]
    ∧ ((buildNotionPage "db" { title := "X" }).properties.map Prod.fst) ≠ ["Title"]
    ∧ ("Status", FieldValue.statusV "Queued")
        ∈ (buildNotionPage "db" { title := "X" }).properties := by
  refine ⟨rfl, by decide, by decide⟩

/-- C4 amended: a title-only record yields a payload with exactly the four
fields Title, Status (defaulted to "Queued"), Agent ("Content Writer") and
Content Type ("Blog Post"); the only conditionally omitted field is Notes,
absent whenever the description is, and `priority` and `tags` never influence
the payload. -/
theorem buildNotionPage_title_only_fields (db title : String) (task : TaskPayload)
    (p : Option String) (tg : Option (List String)) :
    buildNotionPage db { title := title }
      = { databaseId := db,
          properties := [("Title", FieldValue.titleV title),
            ("Status", FieldValue.statusV "Queued"),
            ("Agent", FieldValue.selectV "Content Writer"),
            ("Content Type", FieldValue.selectV "Blog Post")] }
    ∧ buildNotionPage db { task with priority := p, tags := tg }
        = buildNotionPage db task
    ∧ (buildNotionPage db { task with description := none }).properties.map Prod.fst
        = ["Title", "Status", "Agent", "Content Type"] := by
  exact ⟨rfl, rfl, rfl⟩

/-- C6 counterexample: for a record with `tags = ["a","b"]`, the built payload
contains no multi-select field at all, and coincides with the payload built
from the same record without tags. -/
theorem tags_payload_has_no_multiselect :
    ((buildNotionPage "db" { title := "T", tags := some ["a", "b"] }).properties.all
        (fun f => !(FieldValue.isMultiSelect f.2))) = true
    ∧ buildNotionPage "db" { title := "T", tags := some ["a", "b"] }
        = buildNotionPage "db" { title := "T" } := by
  exact ⟨rfl, rfl⟩

/-- C6 amended: `tags` never influences the payload, and no payload built by
`buildNotionPage` ever contains a multi-select field. -/
theorem buildNotionPage_ignores_tags (db : String) (task : TaskPayload)
    (tg : Option (List String)) :
    buildNotionPage db { task with tags := tg } = buildNotionPage db task
    ∧ ((buildNotionPage db task).properties.all
        (fun f => !(FieldValue.isMultiSelect f.2))) = true := by
  constructor
  · rfl
  · unfold buildNotionPage
    cases task.description with
    | none => rfl
    | some d =>
      cases hd : d.isEmpty <;> simp [hd, FieldValue.isMultiSelect]

/-- C5 counterexample: with a morning-hour formatted time and a non-empty
pending queue, `getPendingTasks` returns exactly one record whose title is the
time-stamped batch title, not the fixed template "Daily Code Review"; the
queued record is not appended. -/
theorem getPendingTasks_no_rule_window_no_queue :
    ((getPendingTasks (some [{ title := "Queued task X" }])
        "Oct 12, 2026, 09:00 AM").map (fun t => t.title))
      = ["Write Content Batch — Oct 12, 2026, 09:00 AM"]
    ∧ ((getPendingTasks (some [{ title := "Queued task X" }])
        "Oct 12, 2026, 09:00 AM").map (fun t => t.title))
      ≠ ["Daily Code Review"]
    ∧ ¬ ("Queued task X" ∈ (getPendingTasks (some [{ title := "Queued task X" }])
        "Oct 12, 2026, 09:00 AM").map (fun t => t.title)) := by
  refine ⟨rfl, by decide, by decide⟩

/-- C5 amended: `getPendingTasks` is independent of the hour of day and of the
external queue: for every queue contents and formatted time it returns exactly
one record, titled "Write Content Batch — <formatted time>", with priority
"High" and status "Queued"; queue contents are never appended. -/
theorem getPendingTasks_single_batch_record
    (queue queue2 : Option (List TaskPayload)) (formattedTime : String) :
    getPendingTasks queue formattedTime
      = [{ title := "Write Content Batch — " ++ formattedTime,
           description := some contentBatchDescription,
           priority := some "High",
           status := some "Queued",
           tags := none }]
    ∧ getPendingTasks queue formattedTime = getPendingTasks queue2 formattedTime
    ∧ (getPendingTasks queue formattedTime).length = 1 := by
  exact ⟨rfl, rfl, rfl⟩

/-- C7 counterexample: on the HTTP trigger path with two tasks, the effect
trace is two adjacent Page Submitter calls with no pause of any length between
them. -/
theorem trigger_path_has_no_pause :
    (triggerLoop "db" (fun _ => FetchOutcome.ok "page-1")
        [{ title := "A" }, { title := "B" }] [] []).2
      = [Event.submit { title := "A" }
           (createNotionPage "db" (fun _ => FetchOutcome.ok "page-1") { title := "A" }),
         Event.submit { title := "B" }
           (createNotionPage "db" (fun _ => FetchOutcome.ok "page-1") { title := "B" })]
    ∧ ((triggerLoop "db" (fun _ => FetchOutcome.ok "page-1")
        [{ title := "A" }, { title := "B" }] [] []).2).all
        (fun e => !(Event.isSleep e)) = true := by
  exact ⟨rfl, rfl⟩

/-- C7 amended: the 100ms pause exists only on the timer-driven path, where it
follows every submission (hence separates every pair of adjacent submissions);
the HTTP trigger path performs its submissions back to back with no pause. -/
theorem pause_only_on_scheduled_path (dbId : String)
    (net : NotionPage → FetchOutcome) (tasks : List TaskPayload) :
    (scheduledLoop dbId net tasks [] []).2
      = tasks.flatMap (fun t =>
          [Event.submit t (createNotionPage dbId net t), Event.sleep 100])
    ∧ (triggerLoop dbId net tasks [] []).2
      = tasks.map (fun t => Event.submit t (createNotionPage dbId net t)) := by
  exact ⟨by simp [scheduledLoop_eq], by simp [triggerLoop_eq]⟩

/-- C8: the Run Logger operations are total functions — no raised fault
escapes them: with the store absent they return it unchanged with no write;
with the store present and the write faulting the fault is swallowed and the
store left as it was; with the write succeeding exactly one row is appended.
A failing write also never changes the summary or the effect trace the
scheduled run produces. -/
theorem run_logger_best_effort (writeFails : Bool) (row : BatchSummary)
    (erow : ErrorRow) (st : DbState) (timestamp dbId : String)
    (net : NotionPage → FetchOutcome) (tasks : List TaskPayload)
    (db : Option DbState) :
    logToD1 writeFails none row = none
    ∧ logErrorToD1 writeFails none erow = none
    ∧ logToD1 true (some st) row = some st
    ∧ logErrorToD1 true (some st) erow = some st
    ∧ logToD1 false (some st) row = some { st with cronLogs := st.cronLogs ++ [row] }
    ∧ logErrorToD1 false (some st) erow
        = some { st with errorLogs := st.errorLogs ++ [erow] }
    ∧ (scheduledRun timestamp dbId net tasks true db).summary
        = (scheduledRun timestamp dbId net tasks false db).summary
    ∧ (scheduledRun timestamp dbId net tasks true db).events
        = (scheduledRun timestamp dbId net tasks false db).events := by
  refine ⟨rfl, rfl, rfl, rfl, rfl, rfl, ?_, ?_⟩ <;>
    by_cases h : tasks.length = 0 <;> simp [scheduledRun, h]

/-- C9: a scheduled invocation whose derived task list is empty returns early:
no Page Submitter call and no pause happens (the effect trace is empty), no
summary is assembled, and the log store — configured or not — is returned
unchanged. -/
theorem scheduled_empty_tasks_noop (timestamp dbId : String)
    (net : NotionPage → FetchOutcome) (writeFails : Bool) (db : Option DbState) :
    scheduledRun timestamp dbId net [] writeFails db
      = { db := db, summary := none, events := [] } := by
  rfl

/-- C10: the `/trigger` and `/create` handlers return status 500 exactly on
the body-parse failure path; every successfully parsed request gets status
200, whatever the network does, with per-record failures carried as data in
the 200 body's result list. -/
theorem http_500_only_on_parse_failure (dbId : String)
    (net : NotionPage → FetchOutcome) (pending : List TaskPayload)
    (e : String) (maybeTasks : Option (List TaskPayload)) (task : TaskPayload) :
    triggerHandler dbId net pending (Except.error e)
        = { status := 500, body := ResponseBody.errorBody e }
    ∧ (triggerHandler dbId net pending (Except.ok maybeTasks)).status = 200
    ∧ (triggerHandler dbId net pending (Except.ok maybeTasks)).body
        = ResponseBody.triggerOk
            ("Processed " ++ toString (maybeTasks.getD pending).length ++ " tasks")
            ((maybeTasks.getD pending).map (fun t => createNotionPage dbId net t))
    ∧ createHandler dbId net (Except.error e)
        = { status := 500, body := ResponseBody.errorBody e }
    ∧ createHandler dbId net (Except.ok task)
        = { status := 200,
            body := ResponseBody.single (createNotionPage dbId net task) } := by
  refine ⟨rfl, rfl, ?_, rfl, rfl⟩
  simp [triggerHandler, triggerLoop_eq]
